import Mathlib

/-!
Verification of the TaskPilot core: the task status lifecycle handlers in
frontend/src/components/TaskList.tsx and frontend/src/App.tsx, and the
active-set summarization path in App.tsx (handleAISummary) together with
taskService.getAISummary. Each definition below is a shallow embedding of
the corresponding source function; timestamps are modelled as natural
numbers, the external summarization capability as an explicit function
argument returning Except.
-/

namespace TaskPilot

/-- Task status values from frontend/src/types: TODO, IN_PROGRESS,
COMPLETED, CANCELLED. -/
inductive TaskStatus where
  | TODO
  | IN_PROGRESS
  | COMPLETED
  | CANCELLED
deriving DecidableEq

/-- Task priority values: low, medium, high. -/
inductive TaskPriority where
  | low
  | medium
  | high
deriving DecidableEq

/-- The Task record of the frontend (types/task): id, title, optional
description, priority, status, createdAt, updatedAt, optional dueDate.
Timestamps are modelled as Nat. -/
structure Task where
  id : String
  title : String
  description : Option String
  priority : TaskPriority
  status : TaskStatus
  createdAt : Nat
  updatedAt : Nat
  dueDate : Option Nat
deriving DecidableEq

/-- The updates object passed by the status handlers in TaskList.tsx:
always exactly a status together with a fresh updatedAt. -/
structure TaskUpdates where
  status : TaskStatus
  updatedAt : Nat
deriving DecidableEq

/-- handleTaskUpdate in App.tsx (lines 43 to 49): map over the task list
and merge the updates into the task whose id matches. -/
def handleTaskUpdate (tasks : List Task) (taskId : String) (updates : TaskUpdates) :
    List Task :=
  tasks.map (fun task =>
    if task.id == taskId then
      { task with status := updates.status, updatedAt := updates.updatedAt }
    else
      task)

/-- The confirmModal state of TaskList.tsx (lines 15 to 19): a single
record holding isOpen, taskId and newStatus. -/
structure ConfirmModal where
  isOpen : Bool
  taskId : String
  newStatus : TaskStatus
deriving DecidableEq

/-- The initial, cleared confirmModal value used in TaskList.tsx:
isOpen false, empty taskId, newStatus TODO. -/
def initialConfirmModal : ConfirmModal :=
  { isOpen := false, taskId := "", newStatus := TaskStatus.TODO }

/-- Combined state the TaskList handlers operate on: the task collection
owned by the Dashboard plus the confirmModal slot of TaskList. -/
structure ListState where
  tasks : List Task
  confirmModal : ConfirmModal
deriving DecidableEq

/-- The lookup tasks.find of handleStatusChange (TaskList.tsx line 65). -/
def findTask (tasks : List Task) (taskId : String) : Option Task :=
  tasks.find? (fun t => t.id == taskId)

/-- Outcome labels for the branches of handleStatusChange, matching the
TransitionOutcome vocabulary of the spec: the unknown-id and
CANCELLED-current-state early returns are the Rejected branch, opening
the confirmation modal is PendingConfirmation, and the direct
onTaskUpdate call is Committed. -/
inductive TransitionOutcome where
  | Rejected
  | PendingConfirmation
  | Committed
deriving DecidableEq

/-- handleStatusChange in TaskList.tsx (lines 64 to 81), with
handleTaskUpdate of App.tsx inlined as the onTaskUpdate callback. The
returned TransitionOutcome labels which branch of the source executed;
the returned ListState is the state after the handler. -/
def handleStatusChange (s : ListState) (taskId : String) (newStatus : TaskStatus)
    (now : Nat) : TransitionOutcome × ListState :=
  match findTask s.tasks taskId with
  | none => (TransitionOutcome.Rejected, s)
  | some task =>
    if task.status = TaskStatus.CANCELLED then
      (TransitionOutcome.Rejected, s)
    else if newStatus = TaskStatus.CANCELLED then
      (TransitionOutcome.PendingConfirmation,
        { s with confirmModal := { isOpen := true, taskId := taskId, newStatus := newStatus } })
    else
      (TransitionOutcome.Committed,
        { s with tasks := handleTaskUpdate s.tasks taskId { status := newStatus, updatedAt := now } })

/-- handleConfirmStatusChange in TaskList.tsx (lines 83 to 89): commit
the status held in confirmModal via onTaskUpdate, then reset the modal.
The source performs no check of any kind before committing. -/
def handleConfirmStatusChange (s : ListState) (now : Nat) : ListState :=
  { tasks := handleTaskUpdate s.tasks s.confirmModal.taskId
      { status := s.confirmModal.newStatus, updatedAt := now },
    confirmModal := initialConfirmModal }

/-- The inline onClose handler of the ConfirmationModal in TaskList.tsx
(line 205): reset confirmModal to the cleared value, touching no task.
This is the discard operation of the two-phase protocol. -/
def closeConfirmModal (s : ListState) : ListState :=
  { s with confirmModal := initialConfirmModal }

/-- The active-task predicate used both by handleAISummary (App.tsx
lines 59 to 61) and by getAISummary (taskService lines 339 to 341):
status is TODO or IN_PROGRESS. -/
def isActive (t : Task) : Bool :=
  t.status == TaskStatus.TODO || t.status == TaskStatus.IN_PROGRESS

/-- The payload record built by getAISummary for each active task:
exactly title, description (empty string when absent), priority, status
and dueDate. The Task fields id, createdAt and updatedAt have no
counterpart in this record. -/
structure TaskPayload where
  title : String
  description : String
  priority : TaskPriority
  status : TaskStatus
  dueDate : Option Nat
deriving DecidableEq

/-- The per-task projection inside getAISummary (taskService lines 348
to 354). -/
def projectTask (t : Task) : TaskPayload :=
  { title := t.title
    description := t.description.getD ""
    priority := t.priority
    status := t.status
    dueDate := t.dueDate }

/-- getAISummary in taskService (src/unnamed/part_001 lines 337 to 359).
The external capability (the HTTP post to the backend AI endpoint) is the
explicit argument ext; a thrown error is an Except.error value. -/
def getAISummary (ext : List TaskPayload → Except String String)
    (tasks : List Task) : Except String String :=
  let activeTasks := tasks.filter isActive
  if activeTasks.length = 0 then
    Except.error "No active tasks to summarize"
  else
    ext (activeTasks.map projectTask)

/-- The Dashboard state fields that handleAISummary reads or writes
(App.tsx lines 20 to 25). -/
structure DashState where
  tasks : List Task
  aiSummary : String
  summaryError : Option String
  isSummaryLoading : Bool
  isAISummaryModalOpen : Bool
deriving DecidableEq

/-- The fixed notice handleAISummary shows when the filtered active set
is empty (App.tsx line 64). -/
def noIncompleteNotice : String :=
  "No incomplete tasks to summarize. All tasks are either completed or cancelled."

/-- The fallback error message of the catch branch (App.tsx line 77),
used when the caught error carries a falsy message. -/
def defaultSummaryFailure : String :=
  "Failed to generate AI summary. Please try again later."

/-- handleAISummary in App.tsx (lines 51 to 82): clear summary and error
state and open the modal; filter the incomplete tasks; on an empty
filter set the fixed notice without calling anything external; otherwise
call getAISummary, storing its result in aiSummary on success and a
human-readable message in summaryError on error (the empty message falls
back to the default, matching the error.message fallback); finally clear
the loading flag. -/
def handleAISummary (ext : List TaskPayload → Except String String)
    (s : DashState) : DashState :=
  let s1 := { s with
    isSummaryLoading := true
    summaryError := none
    aiSummary := ""
    isAISummaryModalOpen := true }
  let incompleteTasks := s.tasks.filter isActive
  let s2 :=
    if incompleteTasks.length = 0 then
      { s1 with aiSummary := noIncompleteNotice }
    else
      match getAISummary ext incompleteTasks with
      | Except.ok summary => { s1 with aiSummary := summary }
      | Except.error e =>
        let msg := if e.isEmpty then defaultSummaryFailure else e
        { s1 with summaryError := some msg }
  { s2 with isSummaryLoading := false }

/-! Concrete fixtures used by the witness theorems. -/

/-- A concrete TODO task. -/
def sampleTodo : Task :=
  { id := "a", title := "write report", description := none,
    priority := TaskPriority.medium, status := TaskStatus.TODO,
    createdAt := 0, updatedAt := 0, dueDate := none }

/-- A concrete IN_PROGRESS task. -/
def sampleInProgress : Task :=
  { id := "b", title := "ship build", description := some "almost there",
    priority := TaskPriority.high, status := TaskStatus.IN_PROGRESS,
    createdAt := 0, updatedAt := 0, dueDate := some 10 }

/-- A concrete COMPLETED task. -/
def sampleDone : Task :=
  { id := "c", title := "fix bug", description := some "done",
    priority := TaskPriority.low, status := TaskStatus.COMPLETED,
    createdAt := 0, updatedAt := 0, dueDate := none }

/-- A concrete CANCELLED task. -/
def sampleCancelled : Task :=
  { id := "d", title := "old idea", description := none,
    priority := TaskPriority.low, status := TaskStatus.CANCELLED,
    createdAt := 0, updatedAt := 0, dueDate := none }

/-- A concrete ListState with one task of each status and no pending
confirmation. -/
def sampleState : ListState :=
  { tasks := [sampleTodo, sampleInProgress, sampleDone, sampleCancelled],
    confirmModal := initialConfirmModal }

/-- A concrete external capability that always succeeds. -/
def extConst : List TaskPayload → Except String String :=
  fun _ => Except.ok "summary text"

/-- A concrete external capability that always fails, as a timed-out or
erroring HTTP call does. -/
def extFail : List TaskPayload → Except String String :=
  fun _ => Except.error "Request failed with status code 500"

/-! Helper lemmas about handleTaskUpdate and the active filter. -/

/-- Looking a task up after handleTaskUpdate returns the looked-up task
with the update merged in when its id matches, since the update map
preserves every id. -/
theorem findTask_handleTaskUpdate (tasks : List Task) (tid uid : String)
    (u : TaskUpdates) :
    findTask (handleTaskUpdate tasks uid u) tid =
      (findTask tasks tid).map (fun t =>
        if t.id == uid then { t with status := u.status, updatedAt := u.updatedAt }
        else t) := by
  induction tasks with
  | nil => rfl
  | cons a l ih =>
    simp only [findTask, handleTaskUpdate, List.map_cons] at ih ⊢
    have hid : ((if a.id == uid then
        ({ a with status := u.status, updatedAt := u.updatedAt } : Task)
      else a).id == tid) = (a.id == tid) := by
      split <;> rfl
    by_cases h : (a.id == tid) = true
    · rw [List.find?_cons_of_pos _ (by rw [hid]; exact h),
        @List.find?_cons_of_pos Task (fun t => t.id == tid) a l h]
      rfl
    · rw [List.find?_cons_of_neg _ (by rw [hid]; exact h),
        @List.find?_cons_of_neg Task (fun t => t.id == tid) a l h]
      exact ih

/-- A task resolved by id, after handleTaskUpdate at that same id, now
carries exactly the updated status and updatedAt. -/
theorem findTask_update_self (tasks : List Task) (tid : String)
    (u : TaskUpdates) (task : Task) (h : findTask tasks tid = some task) :
    findTask (handleTaskUpdate tasks tid u) tid =
      some { task with status := u.status, updatedAt := u.updatedAt } := by
  rw [findTask_handleTaskUpdate, h]
  have h2 : List.find? (fun t => t.id == tid) tasks = some task := h
  have hp : (task.id == tid) = true :=
    @List.find?_some Task (fun t => t.id == tid) task tasks h2
  have hpe : task.id = tid := by simpa [beq_iff_eq] using hp
  simp [hpe]

/-- handleTaskUpdate leaves every task whose id differs from the target
id untouched. -/
theorem handleTaskUpdate_no_match (tasks : List Task) (tid : String)
    (u : TaskUpdates) (h : ∀ t ∈ tasks, ¬ t.id = tid) :
    handleTaskUpdate tasks tid u = tasks := by
  unfold handleTaskUpdate
  have : tasks.map (fun task =>
      if task.id == tid then
        ({ task with status := u.status, updatedAt := u.updatedAt } : Task)
      else task) = tasks.map id := by
    apply List.map_congr_left
    intro a ha
    have : ¬ (a.id == tid) = true := by
      simpa [beq_iff_eq] using h a ha
    simp [this]
  rw [this, List.map_id]

/-- Filtering with isActive is idempotent. -/
theorem filter_isActive_idem (tasks : List Task) :
    (tasks.filter isActive).filter isActive = tasks.filter isActive := by
  rw [List.filter_filter]
  apply List.filter_congr
  intro a _
  cases h : isActive a <;> simp [h]

/-! Claim theorems. -/

/-- C1: whenever the taskId does not resolve to a known task, or the
resolved task has status CANCELLED, handleStatusChange takes the
Rejected branch and returns the state completely unchanged, for every
requested target status. -/
theorem requestTransition_terminal_or_unknown_rejected
    (s : ListState) (taskId : String) (newStatus : TaskStatus) (now : Nat)
    (h : ∀ task, findTask s.tasks taskId = some task →
      task.status = TaskStatus.CANCELLED) :
    handleStatusChange s taskId newStatus now = (TransitionOutcome.Rejected, s) := by
  unfold handleStatusChange
  cases hf : findTask s.tasks taskId with
  | none => rfl
  | some task => simp [h task hf]

/-- Witness for C1: requesting TODO on the concrete CANCELLED task is
rejected and the sample state is returned unchanged. -/
theorem requestTransition_terminal_or_unknown_rejected_witness :
    handleStatusChange sampleState "d" TaskStatus.TODO 5
      = (TransitionOutcome.Rejected, sampleState) :=
  requestTransition_terminal_or_unknown_rejected sampleState "d" TaskStatus.TODO 5
    (by
      intro task h
      have he : findTask sampleState.tasks "d" = some sampleCancelled := by decide
      rw [he] at h
      cases h
      rfl)

/-- C8: the discard operation (the onClose reset of confirmModal) is
idempotent: a second discard yields the same state as one discard, and
a discard never mutates any task. -/
theorem discard_idempotent (s : ListState) :
    closeConfirmModal (closeConfirmModal s) = closeConfirmModal s ∧
    (closeConfirmModal s).tasks = s.tasks :=
  ⟨rfl, rfl⟩

/-- C3: from a known task in a non-terminal state, requesting CANCELLED
takes the PendingConfirmation branch and mutates no task; a following
confirm commits status CANCELLED together with a fresh updatedAt, while
a following discard leaves the task collection exactly as before. -/
theorem requestCancel_twoPhase
    (s : ListState) (tid : String) (task : Task) (now now2 : Nat)
    (hfind : findTask s.tasks tid = some task)
    (hterm : ¬ task.status = TaskStatus.CANCELLED) :
    (handleStatusChange s tid TaskStatus.CANCELLED now).1
      = TransitionOutcome.PendingConfirmation ∧
    (handleStatusChange s tid TaskStatus.CANCELLED now).2.tasks = s.tasks ∧
    findTask (handleConfirmStatusChange
        (handleStatusChange s tid TaskStatus.CANCELLED now).2 now2).tasks tid
      = some { task with status := TaskStatus.CANCELLED, updatedAt := now2 } ∧
    (closeConfirmModal
        (handleStatusChange s tid TaskStatus.CANCELLED now).2).tasks = s.tasks := by
  have hs : handleStatusChange s tid TaskStatus.CANCELLED now
      = (TransitionOutcome.PendingConfirmation,
         { s with confirmModal :=
            { isOpen := true, taskId := tid, newStatus := TaskStatus.CANCELLED } }) := by
    unfold handleStatusChange
    rw [hfind]
    simp [hterm]
  rw [hs]
  exact ⟨rfl, rfl, findTask_update_self s.tasks tid _ task hfind, rfl⟩

/-- Witness for C3 at the concrete IN_PROGRESS task. -/
theorem requestCancel_twoPhase_witness :
    (handleStatusChange sampleState "b" TaskStatus.CANCELLED 1).1
      = TransitionOutcome.PendingConfirmation ∧
    (handleStatusChange sampleState "b" TaskStatus.CANCELLED 1).2.tasks
      = sampleState.tasks ∧
    findTask (handleConfirmStatusChange
        (handleStatusChange sampleState "b" TaskStatus.CANCELLED 1).2 2).tasks "b"
      = some { sampleInProgress with status := TaskStatus.CANCELLED, updatedAt := 2 } ∧
    (closeConfirmModal
        (handleStatusChange sampleState "b" TaskStatus.CANCELLED 1).2).tasks
      = sampleState.tasks :=
  requestCancel_twoPhase sampleState "b" sampleInProgress 1 2 (by decide) (by decide)

/-- C5: from a known task in a non-terminal state, requesting any target
other than CANCELLED takes the Committed branch, leaves the
confirmation slot alone, rewrites the collection through the single
handleTaskUpdate step in which the resolved task receives the new
status and the fresh updatedAt together, and touches no other task. -/
theorem requestTransition_nondestructive_committed
    (s : ListState) (tid : String) (task : Task) (ns : TaskStatus) (now : Nat)
    (hfind : findTask s.tasks tid = some task)
    (hterm : ¬ task.status = TaskStatus.CANCELLED)
    (hns : ¬ ns = TaskStatus.CANCELLED) :
    (handleStatusChange s tid ns now).1 = TransitionOutcome.Committed ∧
    (handleStatusChange s tid ns now).2.confirmModal = s.confirmModal ∧
    (handleStatusChange s tid ns now).2.tasks
      = handleTaskUpdate s.tasks tid { status := ns, updatedAt := now } ∧
    findTask (handleStatusChange s tid ns now).2.tasks tid
      = some { task with status := ns, updatedAt := now } ∧
    ∀ t ∈ s.tasks, ¬ t.id = tid → t ∈ (handleStatusChange s tid ns now).2.tasks := by
  have hs : handleStatusChange s tid ns now
      = (TransitionOutcome.Committed,
         { s with tasks :=
            handleTaskUpdate s.tasks tid { status := ns, updatedAt := now } }) := by
    unfold handleStatusChange
    rw [hfind]
    simp [hterm, hns]
  rw [hs]
  refine ⟨rfl, rfl, rfl, findTask_update_self s.tasks tid _ task hfind, ?_⟩
  intro t ht hne
  have hb : (t.id == tid) = false := by
    cases hbe : (t.id == tid) with
    | false => rfl
    | true => exact absurd (by simpa [beq_iff_eq] using hbe) hne
  show t ∈ handleTaskUpdate s.tasks tid { status := ns, updatedAt := now }
  unfold handleTaskUpdate
  have hmem := List.mem_map_of_mem (fun task =>
    if task.id == tid then
      ({ task with status := ns, updatedAt := now } : Task)
    else task) ht
  simpa [hb] using hmem

/-- Witness for C5: moving the concrete TODO task to IN_PROGRESS. -/
theorem requestTransition_nondestructive_committed_witness :
    (handleStatusChange sampleState "a" TaskStatus.IN_PROGRESS 4).1
      = TransitionOutcome.Committed ∧
    (handleStatusChange sampleState "a" TaskStatus.IN_PROGRESS 4).2.confirmModal
      = sampleState.confirmModal ∧
    (handleStatusChange sampleState "a" TaskStatus.IN_PROGRESS 4).2.tasks
      = handleTaskUpdate sampleState.tasks "a"
          { status := TaskStatus.IN_PROGRESS, updatedAt := 4 } ∧
    findTask (handleStatusChange sampleState "a" TaskStatus.IN_PROGRESS 4).2.tasks "a"
      = some { sampleTodo with status := TaskStatus.IN_PROGRESS, updatedAt := 4 } ∧
    ∀ t ∈ sampleState.tasks, ¬ t.id = "a" →
      t ∈ (handleStatusChange sampleState "a" TaskStatus.IN_PROGRESS 4).2.tasks :=
  requestTransition_nondestructive_committed sampleState "a" sampleTodo
    TaskStatus.IN_PROGRESS 4 (by decide) (by decide) (by decide)

/-- The stale-pending scenario refuting C4, step 1: request CANCELLED
for the TODO task, leaving a pending confirmation for id a. -/
def staleStep1 : ListState :=
  (handleStatusChange sampleState "a" TaskStatus.CANCELLED 1).2

/-- The stale-pending scenario, step 2: while the confirmation is still
pending, commit a transition of the same task to COMPLETED. -/
def staleStep2 : ListState :=
  (handleStatusChange staleStep1 "a" TaskStatus.COMPLETED 2).2

/-- The stale-pending scenario, step 3: confirm the now stale pending
cancellation. -/
def staleStep3 : ListState :=
  handleConfirmStatusChange staleStep2 3

/-- C4 counterexample: the task state changes underneath the pending
request, yet the confirm handler still commits the cancellation and
mutates the collection, instead of failing with Rejected and committing
nothing as the claim states. -/
theorem confirm_staleCheck_counterexample :
    (handleStatusChange sampleState "a" TaskStatus.CANCELLED 1).1
      = TransitionOutcome.PendingConfirmation ∧
    (handleStatusChange staleStep1 "a" TaskStatus.COMPLETED 2).1
      = TransitionOutcome.Committed ∧
    findTask staleStep2.tasks "a"
      = some { sampleTodo with status := TaskStatus.COMPLETED, updatedAt := 2 } ∧
    staleStep2.confirmModal
      = { isOpen := true, taskId := "a", newStatus := TaskStatus.CANCELLED } ∧
    ¬ staleStep3.tasks = staleStep2.tasks ∧
    findTask staleStep3.tasks "a"
      = some { sampleTodo with status := TaskStatus.CANCELLED, updatedAt := 3 } := by
  decide

/-- C4 amended: handleConfirmStatusChange never rejects and performs no
stale-pending check: it unconditionally merges the pending newStatus
and a fresh updatedAt into every task whose id matches the pending
taskId and clears the pending slot; when no task matches the pending id
(in particular when no pending transition exists and the slot holds the
cleared sentinel with its empty taskId) no task is mutated. -/
theorem confirm_commits_unconditionally (s : ListState) (now : Nat) :
    (handleConfirmStatusChange s now).confirmModal = initialConfirmModal ∧
    ((∀ t ∈ s.tasks, ¬ t.id = s.confirmModal.taskId) →
      (handleConfirmStatusChange s now).tasks = s.tasks) ∧
    (∀ t ∈ s.tasks, t.id = s.confirmModal.taskId →
      ({ t with status := s.confirmModal.newStatus, updatedAt := now } : Task)
        ∈ (handleConfirmStatusChange s now).tasks) := by
  refine ⟨rfl, ?_, ?_⟩
  · intro h
    exact handleTaskUpdate_no_match _ _ _ h
  · intro t ht he
    show _ ∈ handleTaskUpdate s.tasks s.confirmModal.taskId _
    unfold handleTaskUpdate
    have hmem := List.mem_map_of_mem (fun task =>
      if task.id == s.confirmModal.taskId then
        ({ task with status := s.confirmModal.newStatus, updatedAt := now } : Task)
      else task) ht
    simpa [he] using hmem

/-- Witness for the amended C4: confirming on the sample state, whose
pending slot is the cleared sentinel, mutates no task and leaves the
slot cleared. -/
theorem confirm_commits_unconditionally_witness :
    (handleConfirmStatusChange sampleState 7).tasks = sampleState.tasks ∧
    (handleConfirmStatusChange sampleState 7).confirmModal = initialConfirmModal :=
  ⟨(confirm_commits_unconditionally sampleState 7).2.1 (by decide),
   (confirm_commits_unconditionally sampleState 7).1⟩

/-- C9: the pending-confirmation registry is the single confirmModal
slot, one record for the whole task list rather than a per-id map; a
cancellation request for task b while a cancellation of a different
task a is still pending overwrites the slot with b, so the entry for a
is lost without being committed (the tasks are untouched) or explicitly
discarded. -/
theorem pending_slot_global_replacement
    (s : ListState) (aId bId : String) (tb : Task) (now : Nat)
    (_hpend : s.confirmModal
      = { isOpen := true, taskId := aId, newStatus := TaskStatus.CANCELLED })
    (hfind : findTask s.tasks bId = some tb)
    (hterm : ¬ tb.status = TaskStatus.CANCELLED)
    (hab : ¬ aId = bId) :
    (handleStatusChange s bId TaskStatus.CANCELLED now).1
      = TransitionOutcome.PendingConfirmation ∧
    (handleStatusChange s bId TaskStatus.CANCELLED now).2.confirmModal
      = { isOpen := true, taskId := bId, newStatus := TaskStatus.CANCELLED } ∧
    ¬ (handleStatusChange s bId TaskStatus.CANCELLED now).2.confirmModal.taskId = aId ∧
    (handleStatusChange s bId TaskStatus.CANCELLED now).2.tasks = s.tasks := by
  have hs : handleStatusChange s bId TaskStatus.CANCELLED now
      = (TransitionOutcome.PendingConfirmation,
         { s with confirmModal :=
            { isOpen := true, taskId := bId, newStatus := TaskStatus.CANCELLED } }) := by
    unfold handleStatusChange
    rw [hfind]
    simp [hterm]
  rw [hs]
  exact ⟨rfl, rfl, fun hc => hab hc.symm, rfl⟩

/-- A concrete state with a pending cancellation for task a. -/
def pendingState : ListState :=
  { tasks := [sampleTodo, sampleInProgress],
    confirmModal :=
      { isOpen := true, taskId := "a", newStatus := TaskStatus.CANCELLED } }

/-- Witness for C9: with a pending for task a, requesting CANCELLED for
task b replaces the slot and never commits anything for a. -/
theorem pending_slot_global_replacement_witness :
    (handleStatusChange pendingState "b" TaskStatus.CANCELLED 9).1
      = TransitionOutcome.PendingConfirmation ∧
    (handleStatusChange pendingState "b" TaskStatus.CANCELLED 9).2.confirmModal
      = { isOpen := true, taskId := "b", newStatus := TaskStatus.CANCELLED } ∧
    ¬ (handleStatusChange pendingState "b" TaskStatus.CANCELLED 9).2.confirmModal.taskId = "a" ∧
    (handleStatusChange pendingState "b" TaskStatus.CANCELLED 9).2.tasks
      = pendingState.tasks :=
  pending_slot_global_replacement pendingState "a" "b" sampleInProgress 9
    (by decide) (by decide) (by decide) (by decide)

/-- A concrete DashState with one active and one completed task. -/
def sampleDash : DashState :=
  { tasks := [sampleTodo, sampleDone], aiSummary := "", summaryError := none,
    isSummaryLoading := false, isAISummaryModalOpen := false }

/-- A concrete DashState whose tasks are all COMPLETED or CANCELLED. -/
def sampleDashTerminal : DashState :=
  { tasks := [sampleDone, sampleCancelled], aiSummary := "", summaryError := none,
    isSummaryLoading := false, isAISummaryModalOpen := false }

/-- C2: on a collection whose tasks are all COMPLETED or CANCELLED,
handleAISummary produces the fixed nothing-to-summarize notice, leaves
the error channel empty and the collection untouched, and its result
does not depend on the external capability at all, so no external call
is made, for every such collection. -/
theorem summarize_all_terminal_empty
    (s : DashState) (ext ext2 : List TaskPayload → Except String String)
    (h : ∀ t ∈ s.tasks,
      t.status = TaskStatus.COMPLETED ∨ t.status = TaskStatus.CANCELLED) :
    handleAISummary ext s = handleAISummary ext2 s ∧
    (handleAISummary ext s).aiSummary = noIncompleteNotice ∧
    (handleAISummary ext s).summaryError = none ∧
    (handleAISummary ext s).tasks = s.tasks := by
  have hf : s.tasks.filter isActive = [] := by
    rw [List.filter_eq_nil_iff]
    intro t ht
    show ¬ (t.status == TaskStatus.TODO || t.status == TaskStatus.IN_PROGRESS) = true
    rcases h t ht with h1 | h1 <;> rw [h1] <;> decide
  refine ⟨?_, ?_, ?_, ?_⟩ <;> simp [handleAISummary, hf]

/-- Witness for C2 on the concrete all-terminal collection, with two
different external capabilities. -/
theorem summarize_all_terminal_empty_witness :
    handleAISummary extConst sampleDashTerminal
      = handleAISummary extFail sampleDashTerminal ∧
    (handleAISummary extConst sampleDashTerminal).aiSummary = noIncompleteNotice ∧
    (handleAISummary extConst sampleDashTerminal).summaryError = none ∧
    (handleAISummary extConst sampleDashTerminal).tasks = sampleDashTerminal.tasks :=
  summarize_all_terminal_empty sampleDashTerminal extConst extFail (by decide)

/-- C6: when the collection holds at least one active task, the
argument getAISummary hands to the external capability is exactly the
projection of the active tasks: every payload record comes from an
active task of the collection, every active task contributes its
projection, and the projection is invariant under the id, createdAt and
updatedAt fields, which is how the embedding states that those fields
are never sent. -/
theorem getAISummary_payload_minimized
    (tasks : List Task) (ext : List TaskPayload → Except String String)
    (hne : ¬ tasks.filter isActive = []) :
    getAISummary ext tasks = ext ((tasks.filter isActive).map projectTask) ∧
    (∀ p ∈ (tasks.filter isActive).map projectTask,
      ∃ t, t ∈ tasks ∧ isActive t = true ∧ p = projectTask t) ∧
    (∀ t ∈ tasks, isActive t = true →
      projectTask t ∈ (tasks.filter isActive).map projectTask) ∧
    (∀ (t : Task) (i : String) (c u : Nat),
      projectTask { t with id := i, createdAt := c, updatedAt := u }
        = projectTask t) := by
  refine ⟨?_, ?_, ?_, ?_⟩
  · show (if (tasks.filter isActive).length = 0 then
        (Except.error "No active tasks to summarize" : Except String String)
      else ext ((tasks.filter isActive).map projectTask))
      = ext ((tasks.filter isActive).map projectTask)
    rw [if_neg (by simpa [List.length_eq_zero] using hne)]
  · intro p hp
    rcases List.mem_map.mp hp with ⟨t, ht, hpt⟩
    rcases List.mem_filter.mp ht with ⟨ht1, ht2⟩
    exact ⟨t, ht1, ht2, hpt.symm⟩
  · intro t ht ha
    exact List.mem_map_of_mem projectTask (List.mem_filter.mpr ⟨ht, ha⟩)
  · intro t i c u
    rfl

/-- Witness for C6 on the concrete sample collection. -/
theorem getAISummary_payload_minimized_witness :
    getAISummary extConst sampleState.tasks
      = extConst ((sampleState.tasks.filter isActive).map projectTask) :=
  (getAISummary_payload_minimized sampleState.tasks extConst (by decide)).1

/-- C7: when the external capability fails on the projected active
payload, handleAISummary leaves the task collection untouched, reports
through the error channel a nonempty human-readable reason, falling
back to the default message on an empty one, and leaves the success
channel empty. -/
theorem summarize_external_failure
    (s : DashState) (ext : List TaskPayload → Except String String) (e : String)
    (hne : ¬ s.tasks.filter isActive = [])
    (hext : ext ((s.tasks.filter isActive).map projectTask) = Except.error e) :
    (handleAISummary ext s).tasks = s.tasks ∧
    (handleAISummary ext s).summaryError
      = some (if e.isEmpty then defaultSummaryFailure else e) ∧
    (∀ m, (handleAISummary ext s).summaryError = some m → ¬ m = "") ∧
    (handleAISummary ext s).aiSummary = "" := by
  have hga : getAISummary ext (s.tasks.filter isActive) = Except.error e := by
    show (if ((s.tasks.filter isActive).filter isActive).length = 0 then
        (Except.error "No active tasks to summarize" : Except String String)
      else ext (((s.tasks.filter isActive).filter isActive).map projectTask))
      = Except.error e
    rw [filter_isActive_idem, if_neg (by simpa [List.length_eq_zero] using hne)]
    exact hext
  have hmain : handleAISummary ext s
      = ⟨s.tasks, "", some (if e.isEmpty then defaultSummaryFailure else e),
         false, true⟩ := by
    simp only [handleAISummary]
    rw [if_neg (by simpa [List.length_eq_zero] using hne), hga]
  rw [hmain]
  refine ⟨rfl, rfl, ?_, rfl⟩
  intro m hm
  cases hm
  by_cases hie : e.isEmpty = true
  · rw [if_pos hie]
    decide
  · rw [if_neg hie]
    intro heq
    rw [heq] at hie
    exact hie rfl

/-- Witness for C7: the concrete failing capability on the concrete
mixed collection yields the failure outcome and an untouched
collection. -/
theorem summarize_external_failure_witness :
    (handleAISummary extFail sampleDash).tasks = sampleDash.tasks ∧
    (handleAISummary extFail sampleDash).summaryError
      = some (if ("Request failed with status code 500").isEmpty
          then defaultSummaryFailure else "Request failed with status code 500") :=
  ⟨(summarize_external_failure sampleDash extFail
      "Request failed with status code 500" (by decide) rfl).1,
   (summarize_external_failure sampleDash extFail
      "Request failed with status code 500" (by decide) rfl).2.1⟩

/-- C10: the active filter is idempotent, so on the already-filtered
nonempty list that handleAISummary passes along, the re-filter inside
getAISummary is the same nonempty list and getAISummary resolves to the
external call, never to its thrown no-active-tasks error. -/
theorem summarize_refilter_never_throws
    (tasks : List Task) (ext : List TaskPayload → Except String String)
    (hne : ¬ tasks.filter isActive = []) :
    (tasks.filter isActive).filter isActive = tasks.filter isActive ∧
    ¬ (tasks.filter isActive).filter isActive = [] ∧
    getAISummary ext (tasks.filter isActive)
      = ext ((tasks.filter isActive).map projectTask) := by
  refine ⟨filter_isActive_idem tasks, ?_, ?_⟩
  · rw [filter_isActive_idem]
    exact hne
  · show (if ((tasks.filter isActive).filter isActive).length = 0 then
        (Except.error "No active tasks to summarize" : Except String String)
      else ext (((tasks.filter isActive).filter isActive).map projectTask))
      = ext ((tasks.filter isActive).map projectTask)
    rw [filter_isActive_idem, if_neg (by simpa [List.length_eq_zero] using hne)]

/-- Witness for C10 on the concrete sample collection. -/
theorem summarize_refilter_never_throws_witness :
    getAISummary extConst (sampleState.tasks.filter isActive)
      = extConst ((sampleState.tasks.filter isActive).map projectTask) :=
  (summarize_refilter_never_throws sampleState.tasks extConst (by decide)).2.2

end TaskPilot
